import Mathlib

/-!
Verification of the yield-calculation core of the LP yield calculator
(`calculate_yield` in `src/streamlit.py`).  The function is embedded
shallowly over `ℚ`: each local of the Python function becomes a top-level
definition, and the returned dictionary becomes the structure
`YieldBreakdown` whose fields are exactly the keys of the returned dict.
-/

/-- `fee_tier = 0.006` (line 7 of the source). -/
def fee_tier : ℚ := 6 / 1000

/-- `our_total_position_percent = 0.68` (line 8 of the source). -/
def our_total_position_percent : ℚ := 68 / 100

/-- `our_total_position = total_pool_size * our_total_position_percent` (line 10). -/
def our_total_position (total_pool_size : ℚ) : ℚ :=
  total_pool_size * our_total_position_percent

/-- `our_in_range_position = our_total_position * (percent_in_range / 100)` (line 11). -/
def our_in_range_position (total_pool_size percent_in_range : ℚ) : ℚ :=
  our_total_position total_pool_size * (percent_in_range / 100)

/-- `others_position = total_pool_size * (1 - our_total_position_percent)` (line 14). -/
def others_position (total_pool_size : ℚ) : ℚ :=
  total_pool_size * (1 - our_total_position_percent)

/-- `total_in_range = others_position + our_in_range_position` (line 16). -/
def total_in_range (total_pool_size percent_in_range : ℚ) : ℚ :=
  others_position total_pool_size + our_in_range_position total_pool_size percent_in_range

/-- `daily_fees = daily_volume * fee_tier` (line 18). -/
def daily_fees (daily_volume : ℚ) : ℚ :=
  daily_volume * fee_tier

/-- `annual_fees = daily_fees * 365` (line 19). -/
def annual_fees (daily_volume : ℚ) : ℚ :=
  daily_fees daily_volume * 365

/-- `our_share = our_in_range_position / total_in_range if total_in_range > 0 else 0`
(line 21).  This is the raw ratio; the returned dict entry is this value `* 100`. -/
def our_share_raw (total_pool_size percent_in_range : ℚ) : ℚ :=
  if total_in_range total_pool_size percent_in_range > 0 then
    our_in_range_position total_pool_size percent_in_range /
      total_in_range total_pool_size percent_in_range
  else 0

/-- `our_annual_yield = annual_fees * our_share` (line 22). -/
def our_annual_yield (total_pool_size daily_volume percent_in_range : ℚ) : ℚ :=
  annual_fees daily_volume * our_share_raw total_pool_size percent_in_range

/-- `our_monthly_yield = our_annual_yield / 12` (line 23). -/
def our_monthly_yield (total_pool_size daily_volume percent_in_range : ℚ) : ℚ :=
  our_annual_yield total_pool_size daily_volume percent_in_range / 12

/-- `our_apr = (our_annual_yield / our_in_range_position) * 100 if
our_in_range_position > 0 else 0` (line 24). -/
def our_apr (total_pool_size daily_volume percent_in_range : ℚ) : ℚ :=
  if our_in_range_position total_pool_size percent_in_range > 0 then
    (our_annual_yield total_pool_size daily_volume percent_in_range /
      our_in_range_position total_pool_size percent_in_range) * 100
  else 0

/-- The dictionary returned by `calculate_yield` (lines 26–37): one field per key. -/
structure YieldBreakdown where
  our_total_position : ℚ
  our_in_range_position : ℚ
  our_out_of_range_position : ℚ
  total_in_range : ℚ
  daily_fees : ℚ
  annual_fees : ℚ
  our_share : ℚ
  our_annual_yield : ℚ
  our_monthly_yield : ℚ
  our_apr : ℚ
  deriving Repr, DecidableEq

/-- `calculate_yield(total_pool_size, daily_volume, percent_in_range)`
(lines 5–37 of the source). -/
def calculate_yield (total_pool_size daily_volume percent_in_range : ℚ) : YieldBreakdown :=
  { our_total_position := our_total_position total_pool_size
    our_in_range_position := our_in_range_position total_pool_size percent_in_range
    our_out_of_range_position :=
      our_total_position total_pool_size -
        our_in_range_position total_pool_size percent_in_range
    total_in_range := total_in_range total_pool_size percent_in_range
    daily_fees := daily_fees daily_volume
    annual_fees := annual_fees daily_volume
    our_share := our_share_raw total_pool_size percent_in_range * 100
    our_annual_yield := our_annual_yield total_pool_size daily_volume percent_in_range
    our_monthly_yield := our_monthly_yield total_pool_size daily_volume percent_in_range
    our_apr := our_apr total_pool_size daily_volume percent_in_range }

/-! ### Shared helper lemmas -/

/-- Concrete evaluation of the end-to-end example input. -/
theorem cy_example1 :
    calculate_yield 147000 100000 100 =
      { our_total_position := 99960
        our_in_range_position := 99960
        our_out_of_range_position := 0
        total_in_range := 147000
        daily_fees := 600
        annual_fees := 219000
        our_share := 68
        our_annual_yield := 148920
        our_monthly_yield := 12410
        our_apr := 7300 / 49 } := by
  norm_num [calculate_yield, our_total_position, our_in_range_position, others_position,
    total_in_range, daily_fees, annual_fees, our_share_raw, our_annual_yield,
    our_monthly_yield, our_apr, our_total_position_percent, fee_tier]

/-! ### Claims -/

/-- C1 (counterexample): at the example input the returned `our_share` field is `68`,
not the raw ratio `99960 / 147000 = 0.68`, and the returned `our_annual_yield` is not
`annual_fees * our_share` over the returned fields (it is off by a factor of 100);
moreover at `(100, 1, -10)` the returned `our_apr` is 0 although
`our_in_range_position = -34/5 ≠ 0`, so the spec-table formula for `our_apr` (quotient
times 100 whenever the position is nonzero) gives the nonzero value `6205/714` there. -/
theorem C1_counterexample :
    (calculate_yield 147000 100000 100).our_share ≠ 99960 / 147000 ∧
    (calculate_yield 147000 100000 100).our_annual_yield ≠
      (calculate_yield 147000 100000 100).annual_fees *
        (calculate_yield 147000 100000 100).our_share ∧
    (calculate_yield 100 1 (-10)).our_apr = 0 ∧
    ((calculate_yield 100 1 (-10)).our_annual_yield /
        (calculate_yield 100 1 (-10)).our_in_range_position) * 100 ≠ 0 := by
  refine ⟨?_, ?_, ?_, ?_⟩
  · rw [cy_example1]; norm_num
  · rw [cy_example1]; norm_num
  · norm_num [calculate_yield, our_apr, our_annual_yield, our_share_raw, annual_fees,
      daily_fees, fee_tier, total_in_range, others_position, our_in_range_position,
      our_total_position, our_total_position_percent]
  · norm_num [calculate_yield, our_annual_yield, our_share_raw, annual_fees,
      daily_fees, fee_tier, total_in_range, others_position, our_in_range_position,
      our_total_position, our_total_position_percent]

/-- C1 (amended): every returned field satisfies its defining formula, except that the
returned `our_share` is the guarded raw ratio multiplied by 100 (a percentage), so
`our_annual_yield = annual_fees * (our_share / 100)` over the returned fields; the
returned `our_apr` is the quotient times 100 only when `our_in_range_position` is
strictly positive and 0 otherwise (not merely when it is zero); and the
`others_position` value `total_pool_size * (1 - 0.68)` is computed internally and enters
the result only as a summand of `total_in_range`, not as a returned field. -/
theorem C1_fields_formulas (t d p : ℚ) :
    (calculate_yield t d p).our_total_position = t * (68 / 100) ∧
    (calculate_yield t d p).our_in_range_position = t * (68 / 100) * (p / 100) ∧
    (calculate_yield t d p).our_out_of_range_position =
      (calculate_yield t d p).our_total_position -
        (calculate_yield t d p).our_in_range_position ∧
    (calculate_yield t d p).total_in_range =
      t * (1 - 68 / 100) + (calculate_yield t d p).our_in_range_position ∧
    (calculate_yield t d p).daily_fees = d * (6 / 1000) ∧
    (calculate_yield t d p).annual_fees = (calculate_yield t d p).daily_fees * 365 ∧
    (calculate_yield t d p).our_share =
      (if 0 < (calculate_yield t d p).total_in_range then
        (calculate_yield t d p).our_in_range_position /
          (calculate_yield t d p).total_in_range
      else 0) * 100 ∧
    (calculate_yield t d p).our_annual_yield =
      (calculate_yield t d p).annual_fees * ((calculate_yield t d p).our_share / 100) ∧
    (calculate_yield t d p).our_monthly_yield =
      (calculate_yield t d p).our_annual_yield / 12 ∧
    (calculate_yield t d p).our_apr =
      (if 0 < (calculate_yield t d p).our_in_range_position then
        ((calculate_yield t d p).our_annual_yield /
          (calculate_yield t d p).our_in_range_position) * 100
      else 0) := by
  refine ⟨rfl, rfl, rfl, rfl, rfl, rfl, rfl, ?_, rfl, rfl⟩
  show our_annual_yield t d p = annual_fees d * (our_share_raw t p * 100 / 100)
  unfold our_annual_yield
  ring

/-- C3 (counterexample): at the example input the code computes
`our_annual_yield = 148920` and `our_monthly_yield = 12410` exactly, which differ from
the claimed approximations 148988.57 and 12415.71 by 68.57 and 5.71 respectively. -/
theorem C3_counterexample :
    (calculate_yield 147000 100000 100).our_annual_yield = 148920 ∧
    (148988 + 57 / 100 : ℚ) - (calculate_yield 147000 100000 100).our_annual_yield =
      68 + 57 / 100 ∧
    (calculate_yield 147000 100000 100).our_monthly_yield = 12410 ∧
    (12415 + 71 / 100 : ℚ) - (calculate_yield 147000 100000 100).our_monthly_yield =
      5 + 71 / 100 := by
  rw [cy_example1]
  norm_num

/-- C3 (amended): at the example input the exact returned values are
`our_total_position = 99960`, `our_out_of_range_position = 0`, internal
`others_position = 47040`, `total_in_range = 147000`, `daily_fees = 600`,
`annual_fees = 219000`, `our_share = (99960/147000) * 100 = 68` (percent),
`our_annual_yield = 148920`, `our_monthly_yield = 12410`, and
`our_apr = 7300/49 ≈ 148.98`. -/
theorem C3_example_exact :
    (calculate_yield 147000 100000 100).our_total_position = 99960 ∧
    (calculate_yield 147000 100000 100).our_out_of_range_position = 0 ∧
    others_position 147000 = 47040 ∧
    (calculate_yield 147000 100000 100).total_in_range = 147000 ∧
    (calculate_yield 147000 100000 100).daily_fees = 600 ∧
    (calculate_yield 147000 100000 100).annual_fees = 219000 ∧
    (calculate_yield 147000 100000 100).our_share = 99960 / 147000 * 100 ∧
    (calculate_yield 147000 100000 100).our_annual_yield = 148920 ∧
    (calculate_yield 147000 100000 100).our_monthly_yield = 12410 ∧
    (calculate_yield 147000 100000 100).our_apr = 7300 / 49 := by
  rw [cy_example1]
  norm_num [others_position, our_total_position_percent]

/-- C7: with `percent_in_range = 0` the returned `our_in_range_position`, `our_share`,
`our_apr` and `our_annual_yield` are all zero, for every pool size and volume. -/
theorem C7_zero_percent_in_range (t d : ℚ) :
    (calculate_yield t d 0).our_in_range_position = 0 ∧
    (calculate_yield t d 0).our_share = 0 ∧
    (calculate_yield t d 0).our_apr = 0 ∧
    (calculate_yield t d 0).our_annual_yield = 0 := by
  have hpos : our_in_range_position t 0 = 0 := by
    simp [our_in_range_position]
  have hraw : our_share_raw t 0 = 0 := by
    simp [our_share_raw, hpos]
  refine ⟨hpos, ?_, ?_, ?_⟩
  · show our_share_raw t 0 * 100 = 0
    rw [hraw]; ring
  · show our_apr t d 0 = 0
    simp [our_apr, hpos]
  · show our_annual_yield t d 0 = 0
    simp [our_annual_yield, hraw]

/-- C9: both division guards test strict positivity: whenever `total_in_range ≤ 0` the
returned `our_share` is 0, and whenever `our_in_range_position ≤ 0` the returned
`our_apr` is 0, so negative divisors also yield 0. -/
theorem C9_strict_positivity_guards (t d p : ℚ) :
    (total_in_range t p ≤ 0 → (calculate_yield t d p).our_share = 0) ∧
    (our_in_range_position t p ≤ 0 → (calculate_yield t d p).our_apr = 0) := by
  constructor
  · intro h
    show our_share_raw t p * 100 = 0
    rw [our_share_raw, if_neg (not_lt.mpr h)]
    ring
  · intro h
    show our_apr t d p = 0
    rw [our_apr, if_neg (not_lt.mpr h)]

/-- C9 (witness): at `(-100, 0, 0)` the divisors are nonpositive and both guarded
fields are 0. -/
theorem C9_strict_positivity_guards_witness :
    total_in_range (-100) 0 ≤ 0 ∧ our_in_range_position (-100) 0 ≤ 0 ∧
    (calculate_yield (-100) 0 0).our_share = 0 ∧
    (calculate_yield (-100) 0 0).our_apr = 0 :=
  ⟨by norm_num [total_in_range, others_position, our_in_range_position,
      our_total_position, our_total_position_percent],
   by norm_num [our_in_range_position, our_total_position, our_total_position_percent],
   (C9_strict_positivity_guards (-100) 0 0).1
     (by norm_num [total_in_range, others_position, our_in_range_position,
       our_total_position, our_total_position_percent]),
   (C9_strict_positivity_guards (-100) 0 0).2
     (by norm_num [our_in_range_position, our_total_position, our_total_position_percent])⟩

/-- C2 (counterexample): with a negative divisor the code substitutes 0 instead of the
quotient: at `(-100, 1, 100)` the divisor `total_in_range = -100` is negative, the
quotient is `68/100 ≠ 0`, yet the returned `our_share` is 0; and with a positive
divisor the returned `our_share` is the quotient times 100, not the quotient. -/
theorem C2_counterexample :
    (calculate_yield (-100) 1 100).our_share = 0 ∧
    our_in_range_position (-100) 100 / total_in_range (-100) 100 = 68 / 100 ∧
    (calculate_yield 147000 100000 50).our_share ≠
      our_in_range_position 147000 50 / total_in_range 147000 50 := by
  refine ⟨?_, ?_, ?_⟩ <;>
    norm_num [calculate_yield, our_share_raw, total_in_range, others_position,
      our_in_range_position, our_total_position, our_total_position_percent]

/-- C2 (amended): `compute` is total and produces all fields; the returned `our_share`
is 0 exactly when `total_in_range ≤ 0` and otherwise equals the quotient times 100, and
`our_apr` is 0 exactly when `our_in_range_position ≤ 0` and otherwise equals the
quotient times 100; a negative divisor therefore also yields 0.  All other fields are
computed by their formulas in either case. -/
theorem C2_total_and_guards (t d p : ℚ) :
    (total_in_range t p ≤ 0 → (calculate_yield t d p).our_share = 0) ∧
    (0 < total_in_range t p →
      (calculate_yield t d p).our_share =
        our_in_range_position t p / total_in_range t p * 100) ∧
    (our_in_range_position t p ≤ 0 → (calculate_yield t d p).our_apr = 0) ∧
    (0 < our_in_range_position t p →
      (calculate_yield t d p).our_apr =
        our_annual_yield t d p / our_in_range_position t p * 100) ∧
    (calculate_yield t d p).our_total_position = our_total_position t ∧
    (calculate_yield t d p).our_in_range_position = our_in_range_position t p ∧
    (calculate_yield t d p).our_out_of_range_position =
      our_total_position t - our_in_range_position t p ∧
    (calculate_yield t d p).total_in_range = total_in_range t p ∧
    (calculate_yield t d p).daily_fees = daily_fees d ∧
    (calculate_yield t d p).annual_fees = annual_fees d ∧
    (calculate_yield t d p).our_annual_yield = our_annual_yield t d p ∧
    (calculate_yield t d p).our_monthly_yield = our_monthly_yield t d p := by
  refine ⟨?_, ?_, ?_, ?_, rfl, rfl, rfl, rfl, rfl, rfl, rfl, rfl⟩
  · intro h
    show our_share_raw t p * 100 = 0
    rw [our_share_raw, if_neg (not_lt.mpr h)]
    ring
  · intro h
    show our_share_raw t p * 100 = our_in_range_position t p / total_in_range t p * 100
    rw [our_share_raw, if_pos h]
  · intro h
    show our_apr t d p = 0
    rw [our_apr, if_neg (not_lt.mpr h)]
  · intro h
    show our_apr t d p = our_annual_yield t d p / our_in_range_position t p * 100
    rw [our_apr, if_pos h]

/-- C2 (witness): both guard branches exercised at concrete inputs: divisors negative
at `(-100, 1, 100)` give 0, divisors positive at `(147000, 100000, 50)` give the
quotients times 100. -/
theorem C2_total_and_guards_witness :
    total_in_range (-100) 100 ≤ 0 ∧
    (calculate_yield (-100) 1 100).our_share = 0 ∧
    our_in_range_position (-100) 100 ≤ 0 ∧
    (calculate_yield (-100) 1 100).our_apr = 0 ∧
    0 < total_in_range 147000 50 ∧
    (calculate_yield 147000 100000 50).our_share =
      our_in_range_position 147000 50 / total_in_range 147000 50 * 100 ∧
    0 < our_in_range_position 147000 50 ∧
    (calculate_yield 147000 100000 50).our_apr =
      our_annual_yield 147000 100000 50 / our_in_range_position 147000 50 * 100 := by
  have h1 : total_in_range (-100) 100 ≤ 0 := by
    norm_num [total_in_range, others_position, our_in_range_position,
      our_total_position, our_total_position_percent]
  have h2 : our_in_range_position (-100) 100 ≤ 0 := by
    norm_num [our_in_range_position, our_total_position, our_total_position_percent]
  have h3 : 0 < total_in_range 147000 50 := by
    norm_num [total_in_range, others_position, our_in_range_position,
      our_total_position, our_total_position_percent]
  have h4 : 0 < our_in_range_position 147000 50 := by
    norm_num [our_in_range_position, our_total_position, our_total_position_percent]
  exact ⟨h1, (C2_total_and_guards (-100) 1 100).1 h1,
    h2, (C2_total_and_guards (-100) 1 100).2.2.1 h2,
    h3, (C2_total_and_guards 147000 100000 50).2.1 h3,
    h4, (C2_total_and_guards 147000 100000 50).2.2.2.1 h4⟩

/-- C6: the positions partition exactly: for `total_pool_size ≥ 0` the returned
`our_total_position` plus the internal `others_position` equals `total_pool_size`, and
for all inputs the returned in-range and out-of-range positions sum to the returned
total position. -/
theorem C6_position_partition (t d p : ℚ) :
    (0 ≤ t → (calculate_yield t d p).our_total_position + others_position t = t) ∧
    (calculate_yield t d p).our_in_range_position +
      (calculate_yield t d p).our_out_of_range_position =
        (calculate_yield t d p).our_total_position := by
  constructor
  · intro _
    show our_total_position t + others_position t = t
    unfold our_total_position others_position our_total_position_percent
    ring
  · show our_in_range_position t p +
      (our_total_position t - our_in_range_position t p) = our_total_position t
    ring

/-- C6 (witness): the partition at `(147000, 1, 30)`. -/
theorem C6_position_partition_witness :
    (0 : ℚ) ≤ 147000 ∧
    (calculate_yield 147000 1 30).our_total_position + others_position 147000 = 147000 :=
  ⟨by norm_num, (C6_position_partition 147000 1 30).1 (by norm_num)⟩

/-- C8: on the stated domain (`total_pool_size ≥ 0`, `daily_volume ≥ 0`,
`percent_in_range ∈ [0, 100]`) every returned field is nonnegative and the returned
`our_share` (a percentage) is at most 100. -/
theorem C8_nonneg_and_share_le_100 (t d p : ℚ)
    (ht : 0 ≤ t) (hd : 0 ≤ d) (hp0 : 0 ≤ p) (hp1 : p ≤ 100) :
    0 ≤ (calculate_yield t d p).our_total_position ∧
    0 ≤ (calculate_yield t d p).our_in_range_position ∧
    0 ≤ (calculate_yield t d p).our_out_of_range_position ∧
    0 ≤ (calculate_yield t d p).total_in_range ∧
    0 ≤ (calculate_yield t d p).daily_fees ∧
    0 ≤ (calculate_yield t d p).annual_fees ∧
    0 ≤ (calculate_yield t d p).our_share ∧
    0 ≤ (calculate_yield t d p).our_annual_yield ∧
    0 ≤ (calculate_yield t d p).our_monthly_yield ∧
    0 ≤ (calculate_yield t d p).our_apr ∧
    (calculate_yield t d p).our_share ≤ 100 := by
  have htp : 0 ≤ our_total_position t := by
    unfold our_total_position our_total_position_percent
    positivity
  have hfrac0 : 0 ≤ p / 100 := by positivity
  have hfrac1 : p / 100 ≤ 1 := by
    rw [div_le_one (by norm_num : (0:ℚ) < 100)]
    exact hp1
  have hpos : 0 ≤ our_in_range_position t p := by
    unfold our_in_range_position
    exact mul_nonneg htp hfrac0
  have hout : 0 ≤ our_total_position t - our_in_range_position t p := by
    unfold our_in_range_position
    nlinarith [mul_le_of_le_one_right htp hfrac1]
  have hoth : 0 ≤ others_position t := by
    unfold others_position our_total_position_percent
    nlinarith
  have htir : 0 ≤ total_in_range t p := by
    unfold total_in_range
    linarith
  have hdf : 0 ≤ daily_fees d := by
    unfold daily_fees fee_tier
    positivity
  have haf : 0 ≤ annual_fees d := by
    unfold annual_fees
    linarith
  have hraw0 : 0 ≤ our_share_raw t p := by
    unfold our_share_raw
    split
    · exact div_nonneg hpos htir
    · exact le_refl 0
  have hraw1 : our_share_raw t p ≤ 1 := by
    unfold our_share_raw
    split
    · rename 0 < total_in_range t p => h
      rw [div_le_one h]
      unfold total_in_range at h ⊢
      linarith
    · norm_num
  have hyield : 0 ≤ our_annual_yield t d p := by
    unfold our_annual_yield
    exact mul_nonneg haf hraw0
  have hmon : 0 ≤ our_monthly_yield t d p := by
    unfold our_monthly_yield
    positivity
  have hapr : 0 ≤ our_apr t d p := by
    unfold our_apr
    split
    · rename 0 < our_in_range_position t p => h
      have := div_nonneg hyield h.le
      linarith
    · exact le_refl 0
  exact ⟨htp, hpos, hout, htir, hdf, haf,
    mul_nonneg hraw0 (by norm_num),
    hyield, hmon, hapr,
    by show our_share_raw t p * 100 ≤ 100; nlinarith⟩

/-- C8 (witness): the invariants at `(147000, 100000, 50)`. -/
theorem C8_nonneg_and_share_le_100_witness :
    (0 : ℚ) ≤ 147000 ∧ (0 : ℚ) ≤ 100000 ∧ (0 : ℚ) ≤ 50 ∧ (50 : ℚ) ≤ 100 ∧
    (0 ≤ (calculate_yield 147000 100000 50).our_total_position ∧
     0 ≤ (calculate_yield 147000 100000 50).our_in_range_position ∧
     0 ≤ (calculate_yield 147000 100000 50).our_out_of_range_position ∧
     0 ≤ (calculate_yield 147000 100000 50).total_in_range ∧
     0 ≤ (calculate_yield 147000 100000 50).daily_fees ∧
     0 ≤ (calculate_yield 147000 100000 50).annual_fees ∧
     0 ≤ (calculate_yield 147000 100000 50).our_share ∧
     0 ≤ (calculate_yield 147000 100000 50).our_annual_yield ∧
     0 ≤ (calculate_yield 147000 100000 50).our_monthly_yield ∧
     0 ≤ (calculate_yield 147000 100000 50).our_apr ∧
     (calculate_yield 147000 100000 50).our_share ≤ 100) :=
  ⟨by norm_num, by norm_num, by norm_num, by norm_num,
   C8_nonneg_and_share_le_100 147000 100000 50
     (by norm_num) (by norm_num) (by norm_num) (by norm_num)⟩

/-- C4 (counterexample): the claimed strict monotonicity fails as stated.  With
`daily_volume = 0` both yields are 0 although `percent_in_range` increases from 0 to
100 and `total_in_range` is positive at the smaller value; and with a negative pool
size (`-100`, positive volume) the yield strictly decreases from `p = -100` to `p = 0`
although `total_in_range` is positive at the smaller value. -/
theorem C4_counterexample :
    (0 < total_in_range 147000 0 ∧ (0 : ℚ) < 100 ∧ (100 : ℚ) ≤ 100 ∧
      ¬ (calculate_yield 147000 0 0).our_annual_yield <
          (calculate_yield 147000 0 100).our_annual_yield) ∧
    (0 < total_in_range (-100) (-100) ∧ (-100 : ℚ) < 0 ∧ (0 : ℚ) ≤ 100 ∧
      ¬ (calculate_yield (-100) 1 (-100)).our_annual_yield <
          (calculate_yield (-100) 1 0).our_annual_yield) := by
  refine ⟨⟨?_, by norm_num, by norm_num, ?_⟩, ⟨?_, by norm_num, by norm_num, ?_⟩⟩ <;>
    norm_num [calculate_yield, our_annual_yield, our_share_raw, annual_fees, daily_fees,
      fee_tier, total_in_range, others_position, our_in_range_position,
      our_total_position, our_total_position_percent]

/-- C4 (amended): for fixed `total_pool_size ≥ 0` and fixed `daily_volume > 0`, if
`percent_in_range1 < percent_in_range2 ≤ 100` and `total_in_range` is positive at the
smaller value, then `our_annual_yield` is strictly smaller at the smaller value. -/
theorem C4_yield_strict_mono_percent (t d p1 p2 : ℚ)
    (ht : 0 ≤ t) (hd : 0 < d) (h12 : p1 < p2) (_h2 : p2 ≤ 100)
    (htir : 0 < total_in_range t p1) :
    (calculate_yield t d p1).our_annual_yield <
      (calculate_yield t d p2).our_annual_yield := by
  have ht' : 0 < t := by
    rcases ht.lt_or_eq with h | h
    · exact h
    · exfalso
      rw [← h] at htir
      norm_num [total_in_range, others_position, our_in_range_position,
        our_total_position, our_total_position_percent] at htir
  have hq : 0 < our_total_position t := by
    unfold our_total_position our_total_position_percent
    positivity
  have hpos12 : our_in_range_position t p1 < our_in_range_position t p2 := by
    unfold our_in_range_position
    have hdiv : p1 / 100 < p2 / 100 := by linarith
    exact mul_lt_mul_of_pos_left hdiv hq
  have ho : 0 < others_position t := by
    unfold others_position
    exact mul_pos ht' (by norm_num [our_total_position_percent])
  have htir2 : 0 < total_in_range t p2 := by
    unfold total_in_range at htir ⊢
    linarith
  have hraw : our_share_raw t p1 < our_share_raw t p2 := by
    unfold our_share_raw
    rw [if_pos htir, if_pos htir2, div_lt_div_iff₀ htir htir2]
    unfold total_in_range
    nlinarith [mul_pos ho (sub_pos.mpr hpos12)]
  have hA : 0 < annual_fees d := by
    unfold annual_fees daily_fees fee_tier
    positivity
  show our_annual_yield t d p1 < our_annual_yield t d p2
  unfold our_annual_yield
  exact mul_lt_mul_of_pos_left hraw hA

/-- C4 (witness): at `(147000, 100000)` the yield strictly increases from
`percent_in_range = 25` to `75`. -/
theorem C4_yield_strict_mono_percent_witness :
    (0 : ℚ) ≤ 147000 ∧ (0 : ℚ) < 100000 ∧ (25 : ℚ) < 75 ∧ (75 : ℚ) ≤ 100 ∧
    0 < total_in_range 147000 25 ∧
    (calculate_yield 147000 100000 25).our_annual_yield <
      (calculate_yield 147000 100000 75).our_annual_yield :=
  ⟨by norm_num, by norm_num, by norm_num, by norm_num,
   by norm_num [total_in_range, others_position, our_in_range_position,
     our_total_position, our_total_position_percent],
   C4_yield_strict_mono_percent 147000 100000 25 75 (by norm_num) (by norm_num)
     (by norm_num) (by norm_num)
     (by norm_num [total_in_range, others_position, our_in_range_position,
       our_total_position, our_total_position_percent])⟩

/-- C5 (counterexample): the claimed strict monotonicity in volume fails as stated: at
`total_pool_size = -100`, `percent_in_range = -10` the position `our_in_range_position
= 34/5` is positive, yet the yield is 0 at both volumes 0 and 1 because `total_in_range
= -126/5` is negative and the share guard substitutes 0. -/
theorem C5_counterexample :
    0 < our_in_range_position (-100) (-10) ∧ (0 : ℚ) < 1 ∧
    ¬ (calculate_yield (-100) 0 (-10)).our_annual_yield <
        (calculate_yield (-100) 1 (-10)).our_annual_yield := by
  refine ⟨?_, by norm_num, ?_⟩ <;>
    norm_num [calculate_yield, our_annual_yield, our_share_raw, annual_fees, daily_fees,
      fee_tier, total_in_range, others_position, our_in_range_position,
      our_total_position, our_total_position_percent]

/-- C5 (amended): for fixed `total_pool_size` and `percent_in_range` such that
`our_in_range_position > 0` and `total_in_range > 0`, a strictly larger `daily_volume`
gives a strictly larger `our_annual_yield`. -/
theorem C5_yield_strict_mono_volume (t p d1 d2 : ℚ)
    (hpos : 0 < our_in_range_position t p) (htir : 0 < total_in_range t p)
    (h12 : d1 < d2) :
    (calculate_yield t d1 p).our_annual_yield <
      (calculate_yield t d2 p).our_annual_yield := by
  have hraw : 0 < our_share_raw t p := by
    unfold our_share_raw
    rw [if_pos htir]
    exact div_pos hpos htir
  have hA : annual_fees d1 < annual_fees d2 := by
    unfold annual_fees daily_fees fee_tier
    nlinarith
  show our_annual_yield t d1 p < our_annual_yield t d2 p
  unfold our_annual_yield
  exact mul_lt_mul_of_pos_right hA hraw

/-- C5 (witness): at `(147000, percent 50)` the yield strictly increases from volume
100000 to 200000. -/
theorem C5_yield_strict_mono_volume_witness :
    0 < our_in_range_position 147000 50 ∧ 0 < total_in_range 147000 50 ∧
    (100000 : ℚ) < 200000 ∧
    (calculate_yield 147000 100000 50).our_annual_yield <
      (calculate_yield 147000 200000 50).our_annual_yield :=
  ⟨by norm_num [our_in_range_position, our_total_position, our_total_position_percent],
   by norm_num [total_in_range, others_position, our_in_range_position,
     our_total_position, our_total_position_percent],
   by norm_num,
   C5_yield_strict_mono_volume 147000 50 100000 200000
     (by norm_num [our_in_range_position, our_total_position, our_total_position_percent])
     (by norm_num [total_in_range, others_position, our_in_range_position,
       our_total_position, our_total_position_percent])
     (by norm_num)⟩

/-- C10: for fixed `total_pool_size > 0` and `daily_volume > 0`, increasing
`percent_in_range` within `(0, 100]` strictly decreases the returned `our_apr`: with
both divisors positive, `our_apr = annual_fees / total_in_range * 100`, and
`total_in_range` strictly grows with `percent_in_range`. -/
theorem C10_apr_strict_anti_percent (t d p1 p2 : ℚ)
    (ht : 0 < t) (hd : 0 < d) (hp1 : 0 < p1) (h12 : p1 < p2) (_h2 : p2 ≤ 100) :
    (calculate_yield t d p2).our_apr < (calculate_yield t d p1).our_apr := by
  have hq : 0 < our_total_position t := by
    unfold our_total_position our_total_position_percent
    positivity
  have hp2' : 0 < p2 := lt_trans hp1 h12
  have hpos1 : 0 < our_in_range_position t p1 := by
    unfold our_in_range_position
    exact mul_pos hq (div_pos hp1 (by norm_num))
  have hpos2 : 0 < our_in_range_position t p2 := by
    unfold our_in_range_position
    exact mul_pos hq (div_pos hp2' (by norm_num))
  have hpos12 : our_in_range_position t p1 < our_in_range_position t p2 := by
    unfold our_in_range_position
    have hdiv : p1 / 100 < p2 / 100 := by linarith
    exact mul_lt_mul_of_pos_left hdiv hq
  have ho : 0 < others_position t := by
    unfold others_position
    exact mul_pos ht (by norm_num [our_total_position_percent])
  have htir1 : 0 < total_in_range t p1 := by
    unfold total_in_range
    linarith
  have htir2 : 0 < total_in_range t p2 := by
    unfold total_in_range
    linarith
  have htir12 : total_in_range t p1 < total_in_range t p2 := by
    unfold total_in_range
    linarith
  have hA : 0 < annual_fees d := by
    unfold annual_fees daily_fees fee_tier
    positivity
  have key : ∀ p : ℚ, 0 < our_in_range_position t p → 0 < total_in_range t p →
      our_apr t d p = annual_fees d / total_in_range t p * 100 := by
    intro p hp htp
    have hne1 : our_in_range_position t p ≠ 0 := ne_of_gt hp
    have hne2 : total_in_range t p ≠ 0 := ne_of_gt htp
    unfold our_apr
    rw [if_pos hp]
    unfold our_annual_yield our_share_raw
    rw [if_pos htp]
    have hsimp : annual_fees d * (our_in_range_position t p / total_in_range t p) /
        our_in_range_position t p = annual_fees d / total_in_range t p := by
      field_simp
      ring
    rw [hsimp]
  show our_apr t d p2 < our_apr t d p1
  rw [key p1 hpos1 htir1, key p2 hpos2 htir2]
  have hlt : annual_fees d / total_in_range t p2 < annual_fees d / total_in_range t p1 :=
    div_lt_div_of_pos_left hA htir1 htir12
  exact mul_lt_mul_of_pos_right hlt (by norm_num)

/-- C10 (witness): at `(147000, 100000)` the APR strictly decreases from
`percent_in_range = 25` to `75`. -/
theorem C10_apr_strict_anti_percent_witness :
    (0 : ℚ) < 147000 ∧ (0 : ℚ) < 100000 ∧ (0 : ℚ) < 25 ∧ (25 : ℚ) < 75 ∧
    (75 : ℚ) ≤ 100 ∧
    (calculate_yield 147000 100000 75).our_apr <
      (calculate_yield 147000 100000 25).our_apr :=
  ⟨by norm_num, by norm_num, by norm_num, by norm_num, by norm_num,
   C10_apr_strict_anti_percent 147000 100000 25 75 (by norm_num) (by norm_num)
     (by norm_num) (by norm_num) (by norm_num)⟩
